import Mathlib

/-!
Shallow embedding of `libpulse-binding-async` (src/context.rs, src/operation.rs).

The repository bridges the callback-driven libpulse API to Rust futures.
We embed the two awaiters (`ConnectFuture::poll`, `Operation::poll`) as pure
step functions over an explicit state, with the behaviour of the external
native layer (current handle state, synchronous connect outcome, connection
errno) supplied as observation inputs to each poll, and the side effects on
the native handle (callback registration, connect calls) returned explicitly.
Wakers are modelled by identifiers (`Nat`); a registered state callback is
the waker identifier captured by the closure `move || waker.wake_by_ref()`.
-/

namespace PulseAsync

/-- `libpulse_binding::error::PAErr` (external dependency): a raw `i32`
error value, modelled as an integer. -/
structure PAErr where
  val : Int
deriving DecidableEq, Repr

/-- `libpulse_binding::error::Code` (external dependency): only the variant
the repository uses. `Code::Killed` is the well-known libpulse error code 12. -/
inductive Code where
  | Killed
deriving DecidableEq, Repr

/-- Numeric value of the error code, per libpulse (`PA_ERR_KILLED = 12`). -/
def Code.toI32 : Code → Int
  | .Killed => 12

/-- `impl From<Code> for PAErr` in libpulse_binding: `PAErr(-(c as i32))`. -/
def PAErr.ofCode (c : Code) : PAErr := ⟨-(c.toI32)⟩

/-- `std::task::Poll`. -/
inductive Poll (α : Type) where
  | Ready (a : α)
  | Pending
deriving DecidableEq, Repr

/-- `pulse::operation::State`: life-cycle of a server-side operation. -/
inductive OpState where
  | Running
  | Done
  | Cancelled
deriving DecidableEq, Repr

/-- The mutable state of an `Operation<F>` awaiter relevant to the embedding:
the state-change callback currently registered on the wrapped native
operation handle (`None` if none), holding the captured waker. -/
structure Operation where
  stateCallback : Option Nat := none
deriving DecidableEq, Repr

/-- `Operation::poll` (src/operation.rs lines 18-29): query `get_state`;
`Done` resolves `Ok(())`, `Cancelled` resolves `Err(Code::Killed.into())`;
otherwise clone the waker, register it via `set_state_callback`, and return
`Pending`. `state` is the value the native `get_state` query returns at this
poll; `waker` is this poll's waker. -/
def Operation.poll (op : Operation) (state : OpState) (waker : Nat) :
    Poll (Except PAErr Unit) × Operation :=
  match state with
  | .Done => (.Ready (.ok ()), op)
  | .Cancelled => (.Ready (.error (PAErr.ofCode .Killed)), op)
  | .Running => (.Pending, { op with stateCallback := some waker })

/-- Drive an `Operation` awaiter through a sequence of polls, each supplying
the observed native state and that poll's waker. Returns the resolution (if
reached), the final awaiter state, and the number of suspensions (polls that
returned `Pending`) before resolution. -/
def Operation.run (op : Operation) :
    List (OpState × Nat) → Option (Except PAErr Unit) × Operation × Nat
  | [] => (none, op, 0)
  | (s, w) :: rest =>
    match Operation.poll op s w with
    | (.Ready r, op1) => (some r, op1, 0)
    | (.Pending, op1) =>
      let (res, op2, n) := Operation.run op1 rest
      (res, op2, n + 1)

/-- Firing the trigger registered on an operation handle: the native layer
invokes the stored closure, whose whole body is `waker.wake_by_ref()`, so
firing emits a wake of the captured waker and changes nothing else. -/
def Operation.fire (op : Operation) : List Nat × Operation :=
  match op.stateCallback with
  | some w => ([w], op)
  | none => ([], op)

/-- `pulse::context::State` (external dependency): life-cycle states of a
connection context, per libpulse. -/
inductive CtxState where
  | Unconnected
  | Connecting
  | Authorizing
  | SettingName
  | Ready
  | Failed
  | Terminated
deriving DecidableEq, Repr

/-- `pulse::context::State::is_good` (external dependency): true for the
connected states `Connecting`, `Authorizing`, `SettingName`, `Ready`,
mirroring the `PA_CONTEXT_IS_GOOD` macro. -/
def CtxState.is_good : CtxState → Bool
  | .Connecting => true
  | .Authorizing => true
  | .SettingName => true
  | .Ready => true
  | _ => false

/-- The mutable state of the native connection context relevant to the
embedding: the state-change callback currently registered on it (holding the
captured waker identifier), set by `set_state_callback`. -/
structure PulseContext where
  stateCallback : Option Nat := none
deriving DecidableEq, Repr

/-- `ConnectFuture` (src/context.rs lines 24-29): the stored connect
parameters. `flags` models the `FlagSet` bitset as a natural number; `api`
models the optional `&SpawnApi` reference as an optional identifier. -/
structure ConnectFuture where
  server : Option String
  flags : Nat
  api : Option Nat
deriving DecidableEq, Repr

/-- Side effects a poll of `ConnectFuture` performs on the native context. -/
inductive CtxEffect where
  | setStateCallback (waker : Nat)
  | connectCall (server : Option String) (flags : Nat) (api : Option Nat)
deriving DecidableEq, Repr

/-- Is this effect a native connect call? -/
def CtxEffect.isConnect : CtxEffect → Bool
  | .connectCall _ _ _ => true
  | _ => false

/-- What the external native layer does during one poll of `ConnectFuture`:
the state `get_state` returns, the synchronous outcome `connect` would
return if called, and this poll's waker. -/
structure ConnPollObs where
  state : CtxState
  connectResult : Except PAErr Unit
  waker : Nat

/-- `ConnectFuture::poll` (src/context.rs lines 34-50): if
`get_state().is_good()` return `Ready(Ok(()))`; otherwise clone the waker,
register it via `set_state_callback`, take `server` and `api` out of the
future, call `connect(server, flags, api)`, return `Ready(Err(err))` on a
synchronous error and `Pending` otherwise. Returns the poll result, the
updated future, the updated context, and the effects in program order. -/
def ConnectFuture.poll (f : ConnectFuture) (ctx : PulseContext) (obs : ConnPollObs) :
    Poll (Except PAErr Unit) × ConnectFuture × PulseContext × List CtxEffect :=
  if (CtxState.is_good obs.state) then
    (.Ready (.ok ()), f, ctx, [])
  else
    let ctx1 : PulseContext := { ctx with stateCallback := some obs.waker }
    let server := f.server
    let api := f.api
    let f1 : ConnectFuture := { f with server := none, api := none }
    let effs := [CtxEffect.setStateCallback obs.waker,
                 CtxEffect.connectCall server f.flags api]
    match obs.connectResult with
    | .error err => (.Ready (.error err), f1, ctx1, effs)
    | .ok _ => (.Pending, f1, ctx1, effs)

/-- Drive a `ConnectFuture` through a sequence of polls; accumulate the
effects performed on the native context in order. -/
def ConnectFuture.run (f : ConnectFuture) (ctx : PulseContext) :
    List ConnPollObs →
      Option (Except PAErr Unit) × ConnectFuture × PulseContext × List CtxEffect
  | [] => (none, f, ctx, [])
  | obs :: rest =>
    match ConnectFuture.poll f ctx obs with
    | (.Ready r, f1, ctx1, effs) => (some r, f1, ctx1, effs)
    | (.Pending, f1, ctx1, effs) =>
      let (res, f2, ctx2, effs2) := ConnectFuture.run f1 ctx1 rest
      (res, f2, ctx2, effs ++ effs2)

/-- Firing the state-change trigger registered on the connection context:
the native layer invokes the stored closure, whose whole body is
`waker.wake_by_ref()`, so firing emits a wake of the captured waker and
changes nothing else. -/
def PulseContext.fire (ctx : PulseContext) : List Nat × PulseContext :=
  match ctx.stateCallback with
  | some w => ([w], ctx)
  | none => ([], ctx)

/-- Number of native connect calls among a poll sequence's effects. -/
def connectCount (effs : List CtxEffect) : Nat :=
  (effs.filter CtxEffect.isConnect).length

/-- Environment of one higher-level request method whose completion callback
receives a `bool` verdict: the result the awaited `Operation` resolves with,
whether the completion callback ran before the caller's flag read (and the
verdict it stored), and the connection's `errno()` diagnostic at read time. -/
structure ReqEnv where
  opResult : Except PAErr Unit
  callbackRan : Option Bool
  errno : PAErr

/-- The value the caller's `success.load(Ordering::Acquire)` reads: the
callback's stored verdict if it ran, else the initial `false`. -/
def ReqEnv.flagValue (env : ReqEnv) : Bool :=
  match env.callbackRan with
  | some suc => suc
  | none => false

/-- Environment of `play_sample_with_proplist`, whose completion callback
receives a `Result`-typed verdict. -/
structure ReqEnvR where
  opResult : Except PAErr Unit
  callbackRan : Option (Except PAErr Unit)
  errno : PAErr

/-- The flag value `play_sample_with_proplist` reads: the callback stores
`suc.is_ok()` of its `Result` verdict if it ran, else the initial `false`. -/
def ReqEnvR.flagValue (env : ReqEnvR) : Bool :=
  match env.callbackRan with
  | some (.ok _) => true
  | some (.error _) => false
  | none => false

namespace Context

/-- `Context::remove_sample` (src/context.rs lines 114-125): allocate the
success flag as `false`, issue the native call with a callback storing the
verdict, await the operation propagating its error with `?`, then map the
flag: `false` to `Err(errno())`, `true` to `Ok(())`. -/
def remove_sample (name : String) (env : ReqEnv) : Except PAErr Unit :=
  let success := false
  let success := match env.callbackRan with
    | some suc => suc
    | none => success
  match env.opResult with
  | .error e => .error e
  | .ok _ =>
    match success with
    | false => .error env.errno
    | true => .ok ()

/-- `Context::play_sample` (src/context.rs lines 138-161): same
success-capture idiom as `remove_sample`. -/
def play_sample (name : String) (dev : Option String) (volume : Option Nat)
    (env : ReqEnv) : Except PAErr Unit :=
  let success := false
  let success := match env.callbackRan with
    | some suc => suc
    | none => success
  match env.opResult with
  | .error e => .error e
  | .ok _ =>
    match success with
    | false => .error env.errno
    | true => .ok ()

/-- `Context::play_sample_with_proplist` (src/context.rs lines 177-202):
the callback receives a `Result` verdict and stores `suc.is_ok()` into the
flag; otherwise the same idiom. -/
def play_sample_with_proplist (name : String) (dev : Option String)
    (volume : Option Nat) (proplist : Nat) (env : ReqEnvR) : Except PAErr Unit :=
  let success := false
  let success := match env.callbackRan with
    | some suc => (match suc with | .ok _ => true | .error _ => false)
    | none => success
  match env.opResult with
  | .error e => .error e
  | .ok _ =>
    match success with
    | false => .error env.errno
    | true => .ok ()

/-- `Context::exit_daemon` (src/context.rs lines 212-222): same flag setup,
but the method returns a plain `bool`: `if op.await.is_err() { return
false; }` then the flag value. -/
def exit_daemon (env : ReqEnv) : Bool :=
  let success := false
  let success := match env.callbackRan with
    | some suc => suc
    | none => success
  if (match env.opResult with | .error _ => true | .ok _ => false) then
    false
  else
    success

/-- `Context::set_default_sink` (src/context.rs lines 228-239). -/
def set_default_sink (name : String) (env : ReqEnv) : Except PAErr Unit :=
  let success := false
  let success := match env.callbackRan with
    | some suc => suc
    | none => success
  match env.opResult with
  | .error e => .error e
  | .ok _ =>
    match success with
    | false => .error env.errno
    | true => .ok ()

/-- `Context::set_default_source` (src/context.rs lines 245-256). -/
def set_default_source (name : String) (env : ReqEnv) : Except PAErr Unit :=
  let success := false
  let success := match env.callbackRan with
    | some suc => suc
    | none => success
  match env.opResult with
  | .error e => .error e
  | .ok _ =>
    match success with
    | false => .error env.errno
    | true => .ok ()

/-- `Context::set_name` (src/context.rs lines 259-270). -/
def set_name (name : String) (env : ReqEnv) : Except PAErr Unit :=
  let success := false
  let success := match env.callbackRan with
    | some suc => suc
    | none => success
  match env.opResult with
  | .error e => .error e
  | .ok _ =>
    match success with
    | false => .error env.errno
    | true => .ok ()

/-- `Context::proplist_update` (src/context.rs lines 273-290). `mode` models
the `UpdateMode` argument, `proplist` the property-list reference. -/
def proplist_update (mode : Nat) (proplist : Nat) (env : ReqEnv) :
    Except PAErr Unit :=
  let success := false
  let success := match env.callbackRan with
    | some suc => suc
    | none => success
  match env.opResult with
  | .error e => .error e
  | .ok _ =>
    match success with
    | false => .error env.errno
    | true => .ok ()

/-- `Context::proplist_remove` (src/context.rs lines 293-304). -/
def proplist_remove (keys : List String) (env : ReqEnv) : Except PAErr Unit :=
  let success := false
  let success := match env.callbackRan with
    | some suc => suc
    | none => success
  match env.opResult with
  | .error e => .error e
  | .ok _ =>
    match success with
    | false => .error env.errno
    | true => .ok ()

end Context

/-- C3: whenever a poll of the Remote Operation Awaiter observes the
`Cancelled` state, it resolves with the distinguished Killed error built
from the fixed well-known code (`PAErr(-12)`), never `Ok`, never an errno
lookup, and registers nothing. -/
theorem operation_cancelled_resolves_killed (op : Operation) (w : Nat) :
    Operation.poll op .Cancelled w =
      (.Ready (.error (PAErr.ofCode .Killed)), op) ∧
    PAErr.ofCode .Killed = ⟨-12⟩ :=
  ⟨rfl, rfl⟩

/-- C4: a poll of the Remote Operation Awaiter that observes a terminal
state (`Done` or `Cancelled`) resolves on that poll, leaving the awaiter
state (in particular the registered trigger) unchanged; and a run whose
first poll observes `Done` resolves `Ok(())` with zero suspensions. -/
theorem operation_terminal_resolves_immediately (op : Operation) (w : Nat)
    (s : OpState) (h : s = .Done ∨ s = .Cancelled)
    (rest : List (OpState × Nat)) :
    (Operation.poll op s w).1 ≠ .Pending ∧
    (Operation.poll op s w).2 = op ∧
    Operation.run op ((OpState.Done, w) :: rest) = (some (.ok ()), op, 0) := by
  refine ⟨?_, ?_, rfl⟩ <;> rcases h with h | h <;> subst h <;> simp [Operation.poll]

/-- Witness for C4 at a concrete terminal input. -/
theorem operation_terminal_resolves_immediately_witness :
    (Operation.poll ⟨some 9⟩ .Done 4).1 ≠ .Pending ∧
    (Operation.poll ⟨some 9⟩ .Done 4).2 = ⟨some 9⟩ ∧
    Operation.run ⟨some 9⟩ [(OpState.Done, 4), (OpState.Running, 5)] =
      (some (.ok ()), ⟨some 9⟩, 0) :=
  operation_terminal_resolves_immediately ⟨some 9⟩ 4 .Done (Or.inl rfl)
    [(OpState.Running, 5)]

/-- C7: a poll of the Connection Readiness Awaiter that observes a good
context state resolves `Ok(())` on that poll, leaving the future and the
context untouched and performing no effect — no trigger registration and no
connect call. -/
theorem connect_good_state_resolves_ok (f : ConnectFuture) (ctx : PulseContext)
    (obs : ConnPollObs) (h : CtxState.is_good obs.state = true) :
    ConnectFuture.poll f ctx obs = (.Ready (.ok ()), f, ctx, []) := by
  simp [ConnectFuture.poll, h]

/-- Witness for C7 at a concrete good-state input. -/
theorem connect_good_state_resolves_ok_witness :
    ConnectFuture.poll ⟨some "srv", 3, some 7⟩ ⟨none⟩
        ⟨.Ready, .ok (), 2⟩ =
      (.Ready (.ok ()), ⟨some "srv", 3, some 7⟩, ⟨none⟩, []) :=
  connect_good_state_resolves_ok ⟨some "srv", 3, some 7⟩ ⟨none⟩
    ⟨.Ready, .ok (), 2⟩ rfl

/-- C1: on the two-poll sequence where the context state is `Unconnected` at
the first poll and `Failed` at the second (both times `connect` returning
`Ok`), `ConnectFuture::poll` issues the native connect call twice — the
second time with `server = None` and `api = None` because the stored
parameters were consumed on the first poll — contradicting the single-connect
property. -/
theorem connect_reissued_on_second_poll :
    connectCount (ConnectFuture.run ⟨some "srv", 3, some 7⟩ ⟨none⟩
        [⟨.Unconnected, .ok (), 0⟩, ⟨.Failed, .ok (), 1⟩]).2.2.2 = 2 ∧
    (ConnectFuture.run ⟨some "srv", 3, some 7⟩ ⟨none⟩
        [⟨.Unconnected, .ok (), 0⟩, ⟨.Failed, .ok (), 1⟩]).2.2.2.filter
        CtxEffect.isConnect =
      [CtxEffect.connectCall (some "srv") 3 (some 7),
       CtxEffect.connectCall none 3 none] :=
  ⟨rfl, rfl⟩

/-- C6 counterexample: on a poll where the state is not good and `connect`
fails synchronously, the awaiter does resolve with that error, but the
state-change callback registered earlier in the same poll is left installed
on the context (the registration is not `none` after resolution), contrary
to the claim that no trigger registration is left behind. -/
theorem connect_sync_error_leaves_trigger_registered :
    (ConnectFuture.poll ⟨some "srv", 0, none⟩ ⟨none⟩
        ⟨.Unconnected, .error ⟨-6⟩, 5⟩).1 = .Ready (.error ⟨-6⟩) ∧
    (ConnectFuture.poll ⟨some "srv", 0, none⟩ ⟨none⟩
        ⟨.Unconnected, .error ⟨-6⟩, 5⟩).2.2.1.stateCallback = some 5 :=
  ⟨rfl, rfl⟩

/-- C6 amended: when `connect` returns a native error synchronously during a
poll, the awaiter resolves immediately with exactly that error without
suspending; however, the state-change callback registered earlier in the
same poll (bound to this poll's waker) remains installed on the context. -/
theorem connect_sync_error_resolves_with_error (f : ConnectFuture)
    (ctx : PulseContext) (obs : ConnPollObs) (e : PAErr)
    (h1 : CtxState.is_good obs.state = false)
    (h2 : obs.connectResult = .error e) :
    ConnectFuture.poll f ctx obs =
      (.Ready (.error e), { f with server := none, api := none },
       { ctx with stateCallback := some obs.waker },
       [.setStateCallback obs.waker,
        .connectCall f.server f.flags f.api]) := by
  simp [ConnectFuture.poll, h1, h2]

/-- Witness for the amended C6 at a concrete input. -/
theorem connect_sync_error_resolves_with_error_witness :
    ConnectFuture.poll ⟨some "srv", 3, some 7⟩ ⟨none⟩
        ⟨.Failed, .error ⟨-15⟩, 4⟩ =
      (.Ready (.error ⟨-15⟩), ⟨none, 3, none⟩, ⟨some 4⟩,
       [.setStateCallback 4, .connectCall (some "srv") 3 (some 7)]) :=
  connect_sync_error_resolves_with_error ⟨some "srv", 3, some 7⟩ ⟨none⟩
    ⟨.Failed, .error ⟨-15⟩, 4⟩ ⟨-15⟩ rfl rfl

/-- C2 counterexample: `exit_daemon` collapses an awaiter failure (here the
Killed error of a cancelled operation) into the plain boolean `false` — the
same value a semantic failure produces — so the error value is not carried
to the caller. -/
theorem exit_daemon_collapses_awaiter_error :
    Context.exit_daemon ⟨.error (PAErr.ofCode .Killed), some true, ⟨-1⟩⟩ = false ∧
    Context.exit_daemon ⟨.ok (), some false, ⟨-1⟩⟩ = false :=
  ⟨rfl, rfl⟩

/-- C2 amended: every `Result`-returning request method propagates the
awaited operation's failure to its caller unchanged as `Err(e)`; only
`exit_daemon` (which returns a plain `bool`) collapses it. -/
theorem result_methods_propagate_awaiter_error (name : String)
    (dev : Option String) (volume : Option Nat) (mode pl : Nat)
    (keys : List String) (env : ReqEnv) (envR : ReqEnvR) (e : PAErr)
    (h : env.opResult = .error e) (hR : envR.opResult = .error e) :
    Context.remove_sample name env = .error e ∧
    Context.play_sample name dev volume env = .error e ∧
    Context.play_sample_with_proplist name dev volume pl envR = .error e ∧
    Context.set_default_sink name env = .error e ∧
    Context.set_default_source name env = .error e ∧
    Context.set_name name env = .error e ∧
    Context.proplist_update mode pl env = .error e ∧
    Context.proplist_remove keys env = .error e := by
  simp [Context.remove_sample, Context.play_sample,
    Context.play_sample_with_proplist, Context.set_default_sink,
    Context.set_default_source, Context.set_name, Context.proplist_update,
    Context.proplist_remove, h, hR]

/-- Witness for the amended C2 at concrete inputs. -/
theorem result_methods_propagate_awaiter_error_witness :
    Context.remove_sample "s" ⟨.error ⟨-12⟩, some true, ⟨-1⟩⟩ = .error ⟨-12⟩ ∧
    Context.play_sample "s" none none ⟨.error ⟨-12⟩, some true, ⟨-1⟩⟩ =
      .error ⟨-12⟩ ∧
    Context.play_sample_with_proplist "s" none none 0
        ⟨.error ⟨-12⟩, some (.ok ()), ⟨-1⟩⟩ = .error ⟨-12⟩ ∧
    Context.set_default_sink "s" ⟨.error ⟨-12⟩, some true, ⟨-1⟩⟩ =
      .error ⟨-12⟩ ∧
    Context.set_default_source "s" ⟨.error ⟨-12⟩, some true, ⟨-1⟩⟩ =
      .error ⟨-12⟩ ∧
    Context.set_name "s" ⟨.error ⟨-12⟩, some true, ⟨-1⟩⟩ = .error ⟨-12⟩ ∧
    Context.proplist_update 1 2 ⟨.error ⟨-12⟩, some true, ⟨-1⟩⟩ =
      .error ⟨-12⟩ ∧
    Context.proplist_remove ["k"] ⟨.error ⟨-12⟩, some true, ⟨-1⟩⟩ =
      .error ⟨-12⟩ :=
  result_methods_propagate_awaiter_error "s" none none 1 2 ["k"]
    ⟨.error ⟨-12⟩, some true, ⟨-1⟩⟩ ⟨.error ⟨-12⟩, some (.ok ()), ⟨-1⟩⟩
    ⟨-12⟩ rfl rfl

/-- C5: every success-capture request method allocates its flag as `false`
(so if the completion callback never ran the flag reads `false`), and, when
the awaited operation resolves `Ok`, returns `Ok(())` if the flag reads
`true` and `Err(errno())` if it reads `false`. -/
theorem success_capture_flag_mapping (name : String) (dev : Option String)
    (volume : Option Nat) (mode pl : Nat) (keys : List String)
    (env : ReqEnv) (envR : ReqEnvR)
    (h : env.opResult = .ok ()) (hR : envR.opResult = .ok ()) :
    Context.remove_sample name env =
      (if env.flagValue then .ok () else .error env.errno) ∧
    Context.play_sample name dev volume env =
      (if env.flagValue then .ok () else .error env.errno) ∧
    Context.play_sample_with_proplist name dev volume pl envR =
      (if envR.flagValue then .ok () else .error envR.errno) ∧
    Context.set_default_sink name env =
      (if env.flagValue then .ok () else .error env.errno) ∧
    Context.set_default_source name env =
      (if env.flagValue then .ok () else .error env.errno) ∧
    Context.set_name name env =
      (if env.flagValue then .ok () else .error env.errno) ∧
    Context.proplist_update mode pl env =
      (if env.flagValue then .ok () else .error env.errno) ∧
    Context.proplist_remove keys env =
      (if env.flagValue then .ok () else .error env.errno) ∧
    Context.remove_sample name { env with callbackRan := none } =
      .error env.errno := by
  rcases hc : env.callbackRan with _ | b
  all_goals rcases hcR : envR.callbackRan with _ | (eR | uR)
  all_goals try cases b
  all_goals simp [Context.remove_sample, Context.play_sample,
    Context.play_sample_with_proplist, Context.set_default_sink,
    Context.set_default_source, Context.set_name, Context.proplist_update,
    Context.proplist_remove, ReqEnv.flagValue, ReqEnvR.flagValue, h, hR,
    hc, hcR]

/-- Witness for C5 at concrete inputs. -/
theorem success_capture_flag_mapping_witness :
    Context.remove_sample "s" ⟨.ok (), some true, ⟨-3⟩⟩ =
      (if ReqEnv.flagValue ⟨.ok (), some true, ⟨-3⟩⟩ then .ok ()
       else .error (⟨-3⟩ : PAErr)) ∧
    Context.play_sample "s" none none ⟨.ok (), some true, ⟨-3⟩⟩ =
      (if ReqEnv.flagValue ⟨.ok (), some true, ⟨-3⟩⟩ then .ok ()
       else .error (⟨-3⟩ : PAErr)) ∧
    Context.play_sample_with_proplist "s" none none 0
        ⟨.ok (), some (.error ⟨-2⟩), ⟨-3⟩⟩ =
      (if ReqEnvR.flagValue ⟨.ok (), some (.error ⟨-2⟩), ⟨-3⟩⟩ then .ok ()
       else .error (⟨-3⟩ : PAErr)) ∧
    Context.set_default_sink "s" ⟨.ok (), some true, ⟨-3⟩⟩ =
      (if ReqEnv.flagValue ⟨.ok (), some true, ⟨-3⟩⟩ then .ok ()
       else .error (⟨-3⟩ : PAErr)) ∧
    Context.set_default_source "s" ⟨.ok (), some true, ⟨-3⟩⟩ =
      (if ReqEnv.flagValue ⟨.ok (), some true, ⟨-3⟩⟩ then .ok ()
       else .error (⟨-3⟩ : PAErr)) ∧
    Context.set_name "s" ⟨.ok (), some true, ⟨-3⟩⟩ =
      (if ReqEnv.flagValue ⟨.ok (), some true, ⟨-3⟩⟩ then .ok ()
       else .error (⟨-3⟩ : PAErr)) ∧
    Context.proplist_update 1 2 ⟨.ok (), some true, ⟨-3⟩⟩ =
      (if ReqEnv.flagValue ⟨.ok (), some true, ⟨-3⟩⟩ then .ok ()
       else .error (⟨-3⟩ : PAErr)) ∧
    Context.proplist_remove ["k"] ⟨.ok (), some true, ⟨-3⟩⟩ =
      (if ReqEnv.flagValue ⟨.ok (), some true, ⟨-3⟩⟩ then .ok ()
       else .error (⟨-3⟩ : PAErr)) ∧
    Context.remove_sample "s"
        { (⟨.ok (), some true, ⟨-3⟩⟩ : ReqEnv) with callbackRan := none } =
      .error (⟨-3⟩ : PAErr) :=
  success_capture_flag_mapping "s" none none 1 2 ["k"]
    ⟨.ok (), some true, ⟨-3⟩⟩ ⟨.ok (), some (.error ⟨-2⟩), ⟨-3⟩⟩ rfl rfl

/-- C8: any poll of either awaiter that suspends stores exactly the waker
captured at that poll as the registered trigger — independently of any
previously registered one, which it overwrites, so at most one trigger (an
`Option`) is outstanding — and firing the stored trigger only emits a wake
of that waker, changing neither the handle state nor the awaiter, so a
stale trigger can never resolve the awaiter (resolution happens only inside
a poll). -/
theorem pending_poll_registers_current_waker (op : Operation) (s : OpState)
    (w : Nat) (f : ConnectFuture) (ctx : PulseContext) (obs : ConnPollObs)
    (hop : (Operation.poll op s w).1 = .Pending)
    (hcf : (ConnectFuture.poll f ctx obs).1 = .Pending) :
    (Operation.poll op s w).2.stateCallback = some w ∧
    Operation.fire (Operation.poll op s w).2 =
      ([w], (Operation.poll op s w).2) ∧
    (ConnectFuture.poll f ctx obs).2.2.1.stateCallback = some obs.waker ∧
    PulseContext.fire (ConnectFuture.poll f ctx obs).2.2.1 =
      ([obs.waker], (ConnectFuture.poll f ctx obs).2.2.1) := by
  have hcf2 : (ConnectFuture.poll f ctx obs).2.2.1.stateCallback =
      some obs.waker := by
    unfold ConnectFuture.poll at hcf ⊢
    cases hg : CtxState.is_good obs.state
    · cases hr : obs.connectResult
      · simp [hg, hr] at hcf
      · simp [hg, hr]
    · simp [hg] at hcf
  refine ⟨?_, ?_, hcf2, ?_⟩
  · cases s <;> simp_all [Operation.poll]
  · cases s <;> simp_all [Operation.poll, Operation.fire]
  · simp [PulseContext.fire, hcf2]

/-- Witness for C8 at concrete suspending polls. -/
theorem pending_poll_registers_current_waker_witness :
    (Operation.poll ⟨some 1⟩ .Running 8).2.stateCallback = some 8 ∧
    Operation.fire (Operation.poll ⟨some 1⟩ .Running 8).2 =
      ([8], (Operation.poll ⟨some 1⟩ .Running 8).2) ∧
    (ConnectFuture.poll ⟨some "srv", 3, some 7⟩ ⟨some 1⟩
        ⟨.Unconnected, .ok (), 9⟩).2.2.1.stateCallback = some 9 ∧
    PulseContext.fire (ConnectFuture.poll ⟨some "srv", 3, some 7⟩ ⟨some 1⟩
        ⟨.Unconnected, .ok (), 9⟩).2.2.1 =
      ([9], (ConnectFuture.poll ⟨some "srv", 3, some 7⟩ ⟨some 1⟩
        ⟨.Unconnected, .ok (), 9⟩).2.2.1) :=
  pending_poll_registers_current_waker ⟨some 1⟩ .Running 8
    ⟨some "srv", 3, some 7⟩ ⟨some 1⟩ ⟨.Unconnected, .ok (), 9⟩ rfl rfl

/-- C10: `play_sample_with_proplist` stores only `suc.is_ok()` of its
`Result`-typed callback verdict; for an `Err` verdict the method (on a
successfully resolved operation) returns the connection's errno diagnostic,
and the verdict's own error payload is unobservable: replacing it by any
other error leaves the method's result unchanged. -/
theorem proplist_verdict_error_discarded (name : String) (dev : Option String)
    (volume : Option Nat) (pl : Nat) (envR : ReqEnvR) (e e2 : PAErr)
    (h : envR.callbackRan = some (.error e))
    (hop : envR.opResult = .ok ()) :
    Context.play_sample_with_proplist name dev volume pl envR =
      .error envR.errno ∧
    Context.play_sample_with_proplist name dev volume pl
        { envR with callbackRan := some (.error e2) } =
      Context.play_sample_with_proplist name dev volume pl envR := by
  simp [Context.play_sample_with_proplist, h, hop]

/-- Witness for C10 at a concrete input. -/
theorem proplist_verdict_error_discarded_witness :
    Context.play_sample_with_proplist "s" none none 0
        ⟨.ok (), some (.error ⟨-4⟩), ⟨-3⟩⟩ = .error (⟨-3⟩ : PAErr) ∧
    Context.play_sample_with_proplist "s" none none 0
        { (⟨.ok (), some (.error ⟨-4⟩), ⟨-3⟩⟩ : ReqEnvR) with
          callbackRan := some (.error ⟨-8⟩) } =
      Context.play_sample_with_proplist "s" none none 0
        ⟨.ok (), some (.error ⟨-4⟩), ⟨-3⟩⟩ :=
  proplist_verdict_error_discarded "s" none none 0
    ⟨.ok (), some (.error ⟨-4⟩), ⟨-3⟩⟩ ⟨-4⟩ ⟨-8⟩ rfl rfl

end PulseAsync
